import Mathlib

/-!
Shallow embedding of `Source/CNTKv2LibraryDll/Trainer.cpp` (CNTK v2 trainer
orchestration layer) and proofs about it.

The computation-graph engine, automatic differentiation, tensor storage and
device backends are external collaborators of this file; they are modelled as
explicit parameters (an `Engine` record supplying Forward/Backward results, a
pure in-memory file system for checkpoint persistence).  Mutation of the C++
member state is modelled by explicit state passing (`Trainer` in, `Trainer`
out); C++ exceptions (`InvalidArgument`, `LogicError`, `std::out_of_range`,
stream failures) and undefined behaviour (null dereference, `*begin()` of an
empty container) become an `Except Err` result.  Observable calls to the
external collaborators (Forward, Backward, the per-learner Update) are
recorded in an event trace so that ordering claims can be stated.
Floating-point scalars are modelled as rationals: the claims under study are
structural (which value is computed from which inputs), not about rounding.
-/

namespace CNTK

/-- `CNTK::DataType` (only the members this file touches). -/
inductive DataType where
  | Float
  | Double
  | Unknown
deriving DecidableEq, Repr

/-- `CNTK::VariableKind`. -/
inductive VariableKind where
  | Input
  | Output
  | Parameter
  | Constant
  | Placeholder
deriving DecidableEq, Repr

/-- `CNTK::NDShape`: a list of dimensions. -/
structure NDShape where
  dims : List Nat
deriving DecidableEq, Repr

/-- `NDShape::Rank()`. -/
def NDShape.Rank (s : NDShape) : Nat := s.dims.length

/-- `NDShape::TotalSize()`: product of the dimensions. -/
def NDShape.TotalSize (s : NDShape) : Nat := s.dims.foldr (fun a b => a * b) 1

/-- `NDShape::SubShape(beginAxisId)`: the shape made of the axes from
`beginAxisId` on (the C++ default `endAxisId = Rank()`). -/
def NDShape.SubShape (s : NDShape) (beginAxisId : Nat) : NDShape :=
  ⟨s.dims.drop beginAxisId⟩

/-- `CNTK::NDArrayView`, abstracted: its data type, shape, and a rational
payload standing for the stored scalar / fill value.  `SetValue(1.0f)` /
`SetValue(1.0)` set the payload to 1; `DataBuffer` of a size-1 view reads the
payload. -/
structure NDArrayView where
  dataType : DataType
  shape : NDShape
  payload : Rat
deriving DecidableEq, Repr

/-- `CNTK::NDMask`, abstracted to what the trainer reads: `MaskedCount()`. -/
structure NDMask where
  maskedCount : Nat
deriving DecidableEq, Repr

/-- `CNTK::Value`: a data `NDArrayView` plus an optional mask. -/
structure Value where
  data : NDArrayView
  mask : Option NDMask
deriving DecidableEq, Repr

/-- `CNTK::Variable`, with the attributes the trainer inspects.  Parameters
and Constants carry their current value view (`Variable::Value()`); `none`
stands for a null `NDArrayViewPtr`. -/
structure Variable where
  uid : String
  kind : VariableKind
  shape : NDShape
  dataType : DataType
  dynamicAxes : List Nat
  needsGradient : Bool
  isSparse : Bool
  value : Option NDArrayView
deriving DecidableEq, Repr

/-- `Variable::IsConstant()`. -/
def Variable.IsConstant (v : Variable) : Bool := v.kind = VariableKind.Constant

/-- `Variable::IsParameter()`. -/
def Variable.IsParameter (v : Variable) : Bool := v.kind = VariableKind.Parameter

/-- `CNTK::PrimitiveOpType` (only the members `RestoreFromCheckpoint`
distinguishes). -/
inductive PrimitiveOpType where
  | PastValue
  | FutureValue
  | Other
deriving DecidableEq, Repr

/-- `CNTK::PrimitiveFunction`, abstracted to its op type and inputs. -/
structure PrimitiveFunction where
  opType : PrimitiveOpType
  inputs : List Variable
deriving DecidableEq, Repr

/-- `CNTK::Dictionary`, abstracted to an opaque payload: the trainer only
moves learner checkpoint dictionaries around whole. -/
structure Dictionary where
  raw : Nat
deriving DecidableEq, Repr

/-- A `CNTK::Function` / `CompositeFunction` as the trainer observes it:
its outputs, arguments, parameters, leaf variables (`Inputs()`), and the set
of primitive functions of the composite (`m_allPrimitiveFunctions`). -/
structure Func where
  outputs : List Variable
  arguments : List Variable
  parameters : List Variable
  inputs : List Variable
  allPrimitiveFunctions : List PrimitiveFunction
deriving DecidableEq, Repr

/-- The errors / abnormal exits the embedded code can take. -/
inductive Err where
  | invalidArgument (msg : String)
  | logicError (msg : String)
  | runtimeError (msg : String)
  | outOfRange
  | readFailure
  | undefinedBehavior
deriving DecidableEq, Repr

/-- `Function::Output()`: the single output; `RuntimeError` when there are
several, undefined behaviour (`Outputs()[0]` on an empty vector) when there
are none. -/
def Func.Output (f : Func) : Except Err Variable :=
  match f.outputs with
  | [] => .error .undefinedBehavior
  | [v] => .ok v
  | _ => .error (.runtimeError "Function instances with more than one output cannot be implicitly converted to a Variable")

/-- A learner (`CNTK::Learner`), abstracted: the parameters it covers, its
`Update` behaviour as a pure function of the gradient views and the sample
count, and its checkpoint state. -/
structure Learner where
  id : Nat
  parameters : List Variable
  updateFn : List (Variable × NDArrayView) → Nat → Bool
  checkpointState : Dictionary

/-- The external computation engine: the values `Forward` produces for the
requested outputs and the gradients `Backward` produces for the requested
parameters. -/
structure Engine where
  forwardOut : Variable → Value
  backwardGrad : Variable → Value

/-- An observable call made to an external collaborator during
`TrainMinibatch`. -/
inductive Event where
  | forwardEv (arguments : List (Variable × Value)) (requestedOutputs : List Variable)
      (outputsToRetain : List Variable)
  | backwardEv (rootGradients : List (Variable × Value)) (gradientRequests : List Variable)
  | updateEv (learnerId : Nat) (gradients : List (Variable × NDArrayView)) (sampleCount : Nat)

/-- Whether a trace event is a learner `Update` call. -/
def Event.isUpdate : Event → Bool
  | .updateEv _ _ _ => true
  | _ => false

/-- Scalar extraction, `GetScalarValue` (Trainer.cpp lines 39-66): rejects a
masked value, a value of size ≠ 1 and an unsupported data type; the device
copy preserves the payload. -/
def GetScalarValue (value : Value) : Except Err Rat :=
  if value.mask.isSome then
    .error (.logicError "Scalar Value object cannot have an associated mask")
  else if value.data.shape.TotalSize ≠ 1 then
    .error (.logicError "Scalar Value object's has a size > 1")
  else
    match value.data.dataType with
    | .Float => .ok value.data.payload
    | .Double => .ok value.data.payload
    | _ => .error (.logicError "Unsupported DataType of training loss value")

/-- `GetSampleCountFromArguments` (Trainer.cpp lines 68-86): find the first
argument whose dynamic axes equal the criterion argument's dynamic axes, and
return the number of samples its data view holds minus its masked count.
Dereferencing the end iterator when no argument matches is undefined
behaviour. -/
def GetSampleCountFromArguments (evalOrLossArgument : Variable)
    (arguments : List (Variable × Value)) : Except Err Nat :=
  match arguments.find? (fun currentPair =>
      currentPair.1.dynamicAxes = evalOrLossArgument.dynamicAxes) with
  | none => .error .undefinedBehavior
  | some (argumentVar, argumentValue) =>
    let argumentDataShape := argumentValue.data.shape
    let numMaskedSamples : Nat :=
      match argumentValue.mask with
      | some mask => mask.maskedCount
      | none => 0
    let numSamplesInDataArrayView :=
      (argumentDataShape.SubShape argumentVar.shape.Rank).TotalSize
    if numMaskedSamples > numSamplesInDataArrayView then
      .error (.logicError "Number of masked values cannot exceed the number of samples that the Value object's Data NDArrayView can hold")
    else
      .ok (numSamplesInDataArrayView - numMaskedSamples)

/-- The trainer's member state (`Trainer`'s data members in CNTKLibrary.h as
used by Trainer.cpp). -/
structure Trainer where
  model : Func
  lossFunction : Func
  evaluationFunction : Option Func
  parameterLearners : List Learner
  combinedTrainingFunction : Func
  prevMinibatchNumSamples : Nat
  prevMinibatchAggregateTrainingLossValue : Option Value
  prevMinibatchAggregateEvalCriterionValue : Option Value

/-- Set equality of two `std::unordered_set`s represented as lists (mutual
membership). -/
def listSetEq (a b : List Variable) : Bool :=
  a.all (fun x => b.contains x) && b.all (fun x => a.contains x)

/-- The inner insertion loop of the `Trainer` constructor over one learner's
parameters: inserting a parameter already present raises `InvalidArgument`
("covered by 2 different learners"). -/
def insertLearnerParameters (acc : List Variable) :
    List Variable → Except Err (List Variable)
  | [] => .ok acc
  | parameter :: rest =>
    if acc.contains parameter then
      .error (.invalidArgument "Trainer ctor: Parameter is covered by 2 different learners")
    else insertLearnerParameters (parameter :: acc) rest

/-- The outer loop of the `Trainer` constructor over the learners, collecting
`learnerParameters`. -/
def collectLearnerParameters (acc : List Variable) :
    List Learner → Except Err (List Variable)
  | [] => .ok acc
  | learner :: rest =>
    match insertLearnerParameters acc learner.parameters with
    | .error e => .error e
    | .ok acc' => collectLearnerParameters acc' rest

/-- `Trainer::Trainer(model, lossFunction, evaluationFunction,
parameterLearners)` (Trainer.cpp lines 13-33).  `Combine({model, loss, eval})`
is performed by the external graph engine, so the resulting
`combinedTrainingFunction` is an input here. -/
def Trainer.construct (model lossFunction : Func) (evaluationFunction : Option Func)
    (parameterLearners : List Learner) (combinedTrainingFunction : Func) :
    Except Err Trainer :=
  let modelParameters := combinedTrainingFunction.parameters
  match collectLearnerParameters [] parameterLearners with
  | .error e => .error e
  | .ok learnerParameters =>
  if listSetEq modelParameters learnerParameters then
    .ok { model := model
          lossFunction := lossFunction
          evaluationFunction := evaluationFunction
          parameterLearners := parameterLearners
          combinedTrainingFunction := combinedTrainingFunction
          prevMinibatchNumSamples := 1
          prevMinibatchAggregateTrainingLossValue := none
          prevMinibatchAggregateEvalCriterionValue := none }
  else
    .error (.invalidArgument "Trainer ctor: Union of the parameters covered by the specified parameterLearners should match the specified model's parameters")

/-- The two-argument `Trainer::Trainer(model, lossFunction, parameterLearners)`
(Trainer.cpp lines 35-37): delegates with a null evaluation function. -/
def Trainer.construct2 (model lossFunction : Func)
    (parameterLearners : List Learner) (combinedTrainingFunction : Func) :
    Except Err Trainer :=
  Trainer.construct model lossFunction none parameterLearners combinedTrainingFunction

/-- The body of the per-learner gradient-collection loop in `TrainMinibatch`
(lines 130-138): reads `parameterGradients[parameter]->Data()` (undefined
behaviour on a null entry) and raises `LogicError` when a gradient value
carries a mask. -/
def collectLearnerParameterGradients (parameterGradients : Variable → Option Value) :
    List Variable → Except Err (List (Variable × NDArrayView))
  | [] => .ok []
  | parameter :: rest =>
    match parameterGradients parameter with
    | none => .error .undefinedBehavior
    | some gradValue =>
      if gradValue.mask.isSome then
        .error (.logicError "The gradient value for a Parameter cannot have an associated mask!")
      else
        match collectLearnerParameterGradients parameterGradients rest with
        | .error e => .error e
        | .ok tail => .ok ((parameter, gradValue.data) :: tail)

/-- The learner loop of `TrainMinibatch` (lines 127-141): one `Update` per
learner, or-accumulating `anyUpdatesPerformed`, recording each call as an
event. -/
def runLearnerUpdates (parameterGradients : Variable → Option Value) (numSamples : Nat) :
    List Learner → Except Err (Bool × List Event)
  | [] => .ok (false, [])
  | learner :: rest =>
    match collectLearnerParameterGradients parameterGradients learner.parameters with
    | .error e => .error e
    | .ok learnerParameterGradients =>
      let updated := learner.updateFn learnerParameterGradients numSamples
      match runLearnerUpdates parameterGradients numSamples rest with
      | .error e => .error e
      | .ok (restUpdated, restEvents) =>
        .ok (updated || restUpdated,
             Event.updateEv learner.id learnerParameterGradients numSamples :: restEvents)

/-- `Trainer::TrainMinibatch` (Trainer.cpp lines 101-144).  Returns the
updated trainer state, the `anyUpdatesPerformed` result, and the trace of
external calls (Forward, Backward, the learner Updates, in order). -/
def Trainer.TrainMinibatch (t : Trainer) (engine : Engine)
    (arguments : List (Variable × Value)) :
    Except Err (Trainer × Bool × List Event) :=
  -- outputs = { { m_lossFunction, nullptr } } (+ evaluation function if any);
  -- a FunctionPtr used as a map key converts to its single Output()
  match t.lossFunction.Output with
  | .error e => .error e
  | .ok lossOutput =>
  match (match t.evaluationFunction with
         | some evaluationFunction => evaluationFunction.Output.map some
         | none => .ok none) with
  | .error e => .error e
  | .ok evalOutput? =>
  let requestedOutputs := lossOutput ::
    (match evalOutput? with
     | some v => [v]
     | none => [])
  let forwardEvent := Event.forwardEv arguments requestedOutputs [lossOutput]
  -- after Forward, outputs[v] holds the engine-produced value for v
  let lossValue := engine.forwardOut lossOutput
  let evalValue? := evalOutput?.map engine.forwardOut
  -- rootGradientValue: fresh NDArrayView of the loss output's data type and
  -- the loss value's data shape, carrying the loss value's mask, then
  -- SetValue(1.0f) when the data type is Float, SetValue(1.0) otherwise
  let rootData0 : NDArrayView :=
    { dataType := lossOutput.dataType, shape := lossValue.data.shape, payload := 0 }
  let rootData :=
    if lossOutput.dataType = DataType.Float then
      { rootData0 with payload := (1 : Rat) }
    else
      { rootData0 with payload := (1 : Rat) }
  let rootGradientValue : Value := { data := rootData, mask := lossValue.mask }
  -- parameterGradients: one requested entry per model parameter
  let modelParameters := t.combinedTrainingFunction.parameters
  let parameterGradients : Variable → Option Value :=
    fun p => if modelParameters.contains p then some (engine.backwardGrad p) else none
  let backwardEvent := Event.backwardEv [(lossOutput, rootGradientValue)] modelParameters
  -- m_prevMinibatchNumSamples = GetSampleCountFromArguments(*(Arguments().begin()), arguments)
  match t.lossFunction.arguments with
  | [] => .error .undefinedBehavior
  | lossArgument :: _ =>
  match GetSampleCountFromArguments lossArgument arguments with
  | .error e => .error e
  | .ok numSamples =>
  match runLearnerUpdates parameterGradients numSamples t.parameterLearners with
  | .error e => .error e
  | .ok (anyUpdatesPerformed, updateEvents) =>
  let t' := { t with
    prevMinibatchAggregateTrainingLossValue := some lossValue
    prevMinibatchAggregateEvalCriterionValue :=
      match evalValue? with
      | some v => some v
      | none => t.prevMinibatchAggregateEvalCriterionValue
    prevMinibatchNumSamples := numSamples }
  .ok (t', anyUpdatesPerformed, forwardEvent :: backwardEvent :: updateEvents)

/-- `Trainer::TestMinbatch` (Trainer.cpp lines 88-99): `InvalidArgument`
without an evaluation function; otherwise Forward on the evaluation output and
return its scalar divided by the sample count.  The trainer state is threaded
through unchanged, as the method writes no member. -/
def Trainer.TestMinbatch (t : Trainer) (engine : Engine)
    (arguments : List (Variable × Value)) : Except Err (Trainer × Rat) :=
  match t.evaluationFunction with
  | none =>
    .error (.invalidArgument "Trainer::TestMinbatch: Cannot test when no evaluation function was specified during 'this' trainer's construction")
  | some evaluationFunction =>
    match evaluationFunction.Output with
    | .error e => .error e
    | .ok evalOutput =>
    let evalValue := engine.forwardOut evalOutput
    match evaluationFunction.arguments with
    | [] => .error .undefinedBehavior
    | evalArgument :: _ =>
    match GetSampleCountFromArguments evalArgument arguments with
    | .error e => .error e
    | .ok sampleCount =>
    match GetScalarValue evalValue with
    | .error e => .error e
    | .ok scalar => .ok (t, scalar / (sampleCount : Rat))

/-- `Trainer::PreviousMinibatchLossAverage` (lines 256-259).  A null
`m_prevMinibatchAggregateTrainingLossValue` dereference is undefined
behaviour. -/
def Trainer.PreviousMinibatchLossAverage (t : Trainer) : Except Err Rat :=
  match t.prevMinibatchAggregateTrainingLossValue with
  | none => .error .undefinedBehavior
  | some v =>
    match GetScalarValue v with
    | .error e => .error e
    | .ok s => .ok (s / (t.prevMinibatchNumSamples : Rat))

/-- `Trainer::PreviousMinibatchEvaluationAverage` (lines 261-267):
`InvalidArgument` without an evaluation function. -/
def Trainer.PreviousMinibatchEvaluationAverage (t : Trainer) : Except Err Rat :=
  match t.evaluationFunction with
  | none =>
    .error (.invalidArgument "Trainer::PreviousMinibatchEvaluationAverage: Cannot get evaluation criterion value when no evaluation function was specified during 'this' trainer's construction")
  | some _ =>
    match t.prevMinibatchAggregateEvalCriterionValue with
    | none => .error .undefinedBehavior
    | some v =>
      match GetScalarValue v with
      | .error e => .error e
      | .ok s => .ok (s / (t.prevMinibatchNumSamples : Rat))

/-- What the checkpointing code stores in a file: either a serialized model
(`SaveAsLegacyModel` / `LoadLegacyModel`) or a learner-state dictionary
(`operator<<` / `operator>>` on `Dictionary`). -/
inductive FileContent where
  | modelData (f : Func)
  | learnerState (d : Dictionary)
deriving DecidableEq, Repr

/-- The external file system, as a path-to-content association list. -/
abbrev FileSystem := List (String × FileContent)

/-- Writing a file (create or overwrite): the newest entry for a path
shadows older ones, since reads return the first match. -/
def fsWrite (fs : FileSystem) (path : String) (content : FileContent) : FileSystem :=
  (path, content) :: fs

/-- Reading a file. -/
def fsRead (fs : FileSystem) (path : String) : Option FileContent :=
  (fs.find? (fun p => p.1 = path)).map Prod.snd

/-- `GetTrainerStateCheckpointFilePath` (Trainer.cpp lines 146-150). -/
def GetTrainerStateCheckpointFilePath (modelFilePath : String) : String :=
  modelFilePath ++ ".ckp"

/-- `Trainer::SaveCheckpoint` (Trainer.cpp lines 162-174).  The result pairs
the error raised (if any) with the file system as left behind: the
`SaveAsLegacyModel` write precedes the multiple-learner check, so it persists
on the error path. -/
def Trainer.SaveCheckpoint (t : Trainer) (fs : FileSystem) (modelFilePath : String) :
    Option Err × FileSystem :=
  let fs1 := fsWrite fs modelFilePath (.modelData t.combinedTrainingFunction)
  if t.parameterLearners.length > 1 then
    (some (.logicError "Trainer::SaveCheckpoint: Checkpointing is currently unsupported for multiple learners"), fs1)
  else
    match t.parameterLearners.head? with
    | none => (some .undefinedBehavior, fs1)
    | some learner =>
      let trainerStateCheckpointFilePath := GetTrainerStateCheckpointFilePath modelFilePath
      (none, fsWrite fs1 trainerStateCheckpointFilePath (.learnerState learner.checkpointState))

/-- A `std::map<std::wstring, Variable>` keyed by UID, as an association list
with overwrite-on-insert semantics. -/
abbrev UidMap := List (String × Variable)

/-- `map[uid] = leafVar`: overwrite when present, append when absent. -/
def uidMapSet (m : UidMap) (k : String) (v : Variable) : UidMap :=
  if m.any (fun p => p.1 = k) then
    m.map (fun p => if p.1 = k then (k, v) else p)
  else
    m ++ [(k, v)]

/-- Building the UID map of a leaf-variable list (lines 189-195). -/
def uidMapOf (vars : List Variable) : UidMap :=
  vars.foldl (fun m v => uidMapSet m v.uid v) []

/-- `map.erase(uid)`. -/
def uidMapErase (m : UidMap) (k : String) : UidMap :=
  m.filter (fun p => p.1 ≠ k)

/-- `map.at(uid)`: `none` models the `std::out_of_range` throw. -/
def uidMapAt (m : UidMap) (k : String) : Option Variable :=
  (m.find? (fun p => p.1 = k)).map Prod.snd

/-- `removePastAndFutureValueInitialStateScalarConstants` (lines 199-210):
drop from the map the UID of the second input of every PastValue / FutureValue
primitive function when that input is a scalar constant.  `Inputs()[1]` on a
shorter input vector is undefined behaviour. -/
def removePastAndFutureValueInitialStateScalarConstants :
    List PrimitiveFunction → UidMap → Except Err UidMap
  | [], m => .ok m
  | f :: rest, m =>
    if f.opType = PrimitiveOpType.PastValue ∨ f.opType = PrimitiveOpType.FutureValue then
      match f.inputs.get? 1 with
      | none => .error .undefinedBehavior
      | some initialStateInput =>
        let m' :=
          if initialStateInput.IsConstant ∧ initialStateInput.shape.TotalSize = 1 then
            uidMapErase m initialStateInput.uid
          else m
        removePastAndFutureValueInitialStateScalarConstants rest m'
    else
      removePastAndFutureValueInitialStateScalarConstants rest m

/-- `areVariablesEquivalent` (Trainer.cpp lines 223-231).  `AsTensorShape` is
an external shape conversion, passed in. -/
def areVariablesEquivalent (asTensorShape : NDShape → List Nat)
    (left right : Variable) : Bool :=
  left.kind == right.kind &&
  (left.shape == right.shape || asTensorShape left.shape == asTensorShape right.shape) &&
  left.dataType == right.dataType &&
  left.dynamicAxes.length == right.dynamicAxes.length &&
  left.needsGradient == right.needsGradient &&
  left.uid == right.uid &&
  left.isSparse == right.isSparse

/-- The observable outcome of a successful `RestoreFromCheckpoint`: the value
copies performed into the trainer's model (trainer leaf UID paired with the
loaded model's value view it received), the learner whose state was restored,
and the state handed to it. -/
structure RestoreOutcome where
  copies : List (String × NDArrayView)
  restoredLearnerId : Nat
  restoredLearnerState : Dictionary

/-- The per-leaf loop of `RestoreFromCheckpoint` (lines 219-244): look the
trainer leaf's UID up in the loaded map (`at` throws out-of-range when
absent), raise `InvalidArgument` when the pair is not equivalent, and for
Constants and Parameters copy the loaded value into the trainer's variable
(`CopyFrom` through a null `Value()` is undefined behaviour). -/
def restoreLeafVariables (asTensorShape : NDShape → List Nat) (loadedMap : UidMap) :
    List (String × Variable) → Except Err (List (String × NDArrayView))
  | [] => .ok []
  | (_, trainerModelLeafVar) :: rest =>
    match uidMapAt loadedMap trainerModelLeafVar.uid with
    | none => .error .outOfRange
    | some correspondingLoadedModelVar =>
      if areVariablesEquivalent asTensorShape correspondingLoadedModelVar trainerModelLeafVar then
        if trainerModelLeafVar.IsConstant || trainerModelLeafVar.IsParameter then
          match trainerModelLeafVar.value, correspondingLoadedModelVar.value with
          | some _, some loadedModelVarValue =>
            (match restoreLeafVariables asTensorShape loadedMap rest with
             | .error e => .error e
             | .ok tail => .ok ((trainerModelLeafVar.uid, loadedModelVarValue) :: tail))
          | _, _ => .error .undefinedBehavior
        else
          restoreLeafVariables asTensorShape loadedMap rest
      else
        .error (.invalidArgument "The loaded model's leaf variables do not match the trainer model's leaf variables")

/-- `Trainer::RestoreFromCheckpoint` (Trainer.cpp lines 176-254). -/
def Trainer.RestoreFromCheckpoint (t : Trainer) (asTensorShape : NDShape → List Nat)
    (fs : FileSystem) (modelFilePath : String) : Except Err RestoreOutcome :=
  -- auto firstLearner = *(m_parameterLearners.begin());
  match t.parameterLearners.head? with
  | none => .error .undefinedBehavior
  | some firstLearner =>
  -- LoadLegacyModel(m_combinedTrainingFunction->Outputs()[0].GetDataType(), ...)
  match t.combinedTrainingFunction.outputs.head? with
  | none => .error .undefinedBehavior
  | some _ =>
  match fsRead fs modelFilePath with
  | some (.modelData loadedModelFunction) =>
    let loadedModelLeafVariables := loadedModelFunction.inputs
    let trainerModelLeafVariables := t.combinedTrainingFunction.inputs
    if trainerModelLeafVariables.length ≠ loadedModelLeafVariables.length then
      .error (.invalidArgument "The loaded model's leaf variables do not match the trainer model's leaf variables")
    else
      let loadedMap0 := uidMapOf loadedModelLeafVariables
      let trainerMap0 := uidMapOf trainerModelLeafVariables
      match removePastAndFutureValueInitialStateScalarConstants
        loadedModelFunction.allPrimitiveFunctions loadedMap0 with
      | .error e => .error e
      | .ok loadedMap =>
      match removePastAndFutureValueInitialStateScalarConstants
        t.combinedTrainingFunction.allPrimitiveFunctions trainerMap0 with
      | .error e => .error e
      | .ok trainerMap =>
      match restoreLeafVariables asTensorShape loadedMap trainerMap with
      | .error e => .error e
      | .ok copies =>
      if t.parameterLearners.length > 1 then
        .error (.logicError "Trainer::RestoreFromCheckpoint: Checkpointing is currently unsupported for multiple learners")
      else
        match fsRead fs (GetTrainerStateCheckpointFilePath modelFilePath) with
        | some (.learnerState learnerState) =>
          .ok { copies := copies
                restoredLearnerId := firstLearner.id
                restoredLearnerState := learnerState }
        | _ => .error .readFailure
  | _ => .error .readFailure

/-! ## Concrete fixtures used by the witness theorems -/

/-- The empty (scalar) shape. -/
def scalarShape : NDShape := ⟨[]⟩

def testLossOutput : Variable :=
  { uid := "lossOut", kind := .Output, shape := scalarShape, dataType := .Float,
    dynamicAxes := [], needsGradient := false, isSparse := false, value := none }

def testLossArg : Variable :=
  { uid := "labels", kind := .Input, shape := scalarShape, dataType := .Float,
    dynamicAxes := [0, 1], needsGradient := false, isSparse := false, value := none }

def testParamW : Variable :=
  { uid := "W", kind := .Parameter, shape := scalarShape, dataType := .Float,
    dynamicAxes := [], needsGradient := true, isSparse := false,
    value := some { dataType := .Float, shape := scalarShape, payload := 0 } }

def testLossFunc : Func :=
  { outputs := [testLossOutput], arguments := [testLossArg], parameters := [],
    inputs := [testLossArg], allPrimitiveFunctions := [] }

def testEvalOutput : Variable :=
  { uid := "evalOut", kind := .Output, shape := scalarShape, dataType := .Float,
    dynamicAxes := [], needsGradient := false, isSparse := false, value := none }

def testEvalFunc : Func :=
  { outputs := [testEvalOutput], arguments := [testLossArg], parameters := [],
    inputs := [testLossArg], allPrimitiveFunctions := [] }

def testCombined : Func :=
  { outputs := [testLossOutput], arguments := [testLossArg], parameters := [testParamW],
    inputs := [testLossArg, testParamW], allPrimitiveFunctions := [] }

def testLearner : Learner :=
  { id := 7, parameters := [testParamW], updateFn := fun _ _ => true,
    checkpointState := ⟨42⟩ }

def testTrainer : Trainer :=
  { model := testLossFunc, lossFunction := testLossFunc, evaluationFunction := none,
    parameterLearners := [testLearner], combinedTrainingFunction := testCombined,
    prevMinibatchNumSamples := 1,
    prevMinibatchAggregateTrainingLossValue := none,
    prevMinibatchAggregateEvalCriterionValue := none }

def testTrainerEval : Trainer :=
  { testTrainer with evaluationFunction := some testEvalFunc }

def testParamV : Variable :=
  { uid := "V", kind := .Parameter, shape := scalarShape, dataType := .Float,
    dynamicAxes := [], needsGradient := true, isSparse := false,
    value := some { dataType := .Float, shape := scalarShape, payload := 0 } }

def testLearnerB : Learner :=
  { id := 8, parameters := [testParamV], updateFn := fun _ _ => false,
    checkpointState := ⟨43⟩ }

def testTrainerTwoLearners : Trainer :=
  { testTrainer with parameterLearners := [testLearner, testLearnerB] }

def testEngine : Engine :=
  { forwardOut := fun _ =>
      { data := { dataType := .Float, shape := scalarShape, payload := 6 }, mask := none }
    backwardGrad := fun _ =>
      { data := { dataType := .Float, shape := scalarShape, payload := 2 }, mask := none } }

def testArguments : List (Variable × Value) :=
  [(testLossArg,
    { data := { dataType := .Float, shape := ⟨[3]⟩, payload := 5 }, mask := none })]

/-- The concrete trace events of `testTrainer.TrainMinibatch testEngine
testArguments`. -/
def testRootGradient : Value :=
  { data := { dataType := .Float, shape := scalarShape, payload := 1 }, mask := none }

def testGradData : NDArrayView := { dataType := .Float, shape := scalarShape, payload := 2 }

def testForwardEvent : Event := .forwardEv testArguments [testLossOutput] [testLossOutput]

def testBackwardEvent : Event := .backwardEv [(testLossOutput, testRootGradient)] [testParamW]

def testUpdateEvent : Event := .updateEv 7 [(testParamW, testGradData)] 3

def testTrainerAfter : Trainer :=
  { testTrainer with
    prevMinibatchNumSamples := 3
    prevMinibatchAggregateTrainingLossValue :=
      some { data := { dataType := .Float, shape := scalarShape, payload := 6 }, mask := none } }

/-- The value copies a restore of a model from itself performs: for every
Constant / Parameter entry of the UID map, its own value view. -/
def expectedSelfCopies (m : UidMap) : List (String × NDArrayView) :=
  m.filterMap (fun p =>
    if p.2.IsConstant || p.2.IsParameter then
      p.2.value.map (fun v => (p.2.uid, v))
    else none)

/-- A concrete stand-in for the external `AsTensorShape` conversion. -/
def testATS : NDShape → List Nat := fun s => s.dims

/-- Every UID of the trainer-side map has a counterpart in the loaded-side
map (so no `std::map::at` lookup throws). -/
def leafCounterpartsPresent (loadedMap trainerMap : UidMap) : Bool :=
  trainerMap.all (fun p => (uidMapAt loadedMap p.2.uid).isSome)

/-- Every Constant/Parameter entry that would be copied has value views on
both sides (so no null `Value()` is dereferenced). -/
def leafValuesPresent (loadedMap trainerMap : UidMap) : Bool :=
  trainerMap.all (fun p =>
    !(p.2.IsConstant || p.2.IsParameter) ||
    (p.2.value.isSome && ((uidMapAt loadedMap p.2.uid).all fun q => q.value.isSome)))

/-- Some UID-matched pair of leaf variables fails `areVariablesEquivalent`. -/
def someLeafPairNotEquivalent (asTensorShape : NDShape → List Nat)
    (loadedMap trainerMap : UidMap) : Bool :=
  trainerMap.any (fun p =>
    (uidMapAt loadedMap p.2.uid).any fun q => ! areVariablesEquivalent asTensorShape q p.2)

/-- The value copies a successful restore performs: for every
Constant/Parameter entry of the trainer-side map, the value view of the
UID-matching loaded-side entry. -/
def expectedCopies (loadedMap trainerMap : UidMap) : List (String × NDArrayView) :=
  trainerMap.filterMap (fun p =>
    if p.2.IsConstant || p.2.IsParameter then
      (uidMapAt loadedMap p.2.uid).bind (fun q => q.value.map (fun v => (p.2.uid, v)))
    else none)

/-- A constant leaf variable with UID "a" for the checkpoint-mismatch
scenario. -/
def cexLeafA : Variable :=
  { uid := "a", kind := .Constant, shape := scalarShape, dataType := .Float,
    dynamicAxes := [], needsGradient := false, isSparse := false,
    value := some { dataType := .Float, shape := scalarShape, payload := 0 } }

/-- The same leaf but with UID "b". -/
def cexLeafB : Variable := { cexLeafA with uid := "b" }

def cexCombined : Func :=
  { outputs := [testLossOutput], arguments := [], parameters := [],
    inputs := [cexLeafA], allPrimitiveFunctions := [] }

def cexLoaded : Func := { cexCombined with inputs := [cexLeafB] }

def cexTrainer : Trainer :=
  { testTrainer with combinedTrainingFunction := cexCombined }

def cexFs : FileSystem :=
  [("model", .modelData cexLoaded), ("model.ckp", .learnerState ⟨42⟩)]

/-- A file system holding a checkpoint of `testCombined` itself. -/
def testSavedFs : FileSystem :=
  [("model", .modelData testCombined), ("model.ckp", .learnerState ⟨42⟩)]

/-! ## General helper lemmas -/

theorem fsRead_fsWrite_self (fs : FileSystem) (path : String) (c : FileContent) :
    fsRead (fsWrite fs path c) path = some c := by
  simp [fsRead, fsWrite]

theorem fsRead_fsWrite_other (fs : FileSystem) (path q : String) (c : FileContent)
    (h : q ≠ path) : fsRead (fsWrite fs path c) q = fsRead fs q := by
  simp [fsRead, fsWrite, List.find?, Ne.symm h]

theorem checkpointPath_ne_modelPath (modelFilePath : String) :
    GetTrainerStateCheckpointFilePath modelFilePath ≠ modelFilePath := by
  intro h
  have h2 := congrArg String.length h
  unfold GetTrainerStateCheckpointFilePath at h2
  rw [String.length_append] at h2
  have h4 : (".ckp" : String).length = 4 := rfl
  omega

/-! ## Claim theorems -/

/-- C9: `TestMinbatch` leaves the previous-minibatch training state unchanged:
neither `m_prevMinibatchNumSamples` nor the aggregate loss / eval criterion
values are modified, so `PreviousMinibatchLossAverage` and
`PreviousMinibatchEvaluationAverage` after a `TestMinbatch` still report the
values of the last `TrainMinibatch`. -/
theorem testMinbatch_preserves_previous_minibatch_state
    (t : Trainer) (engine : Engine) (arguments : List (Variable × Value))
    (t' : Trainer) (r : Rat)
    (h : t.TestMinbatch engine arguments = .ok (t', r)) :
    t'.prevMinibatchNumSamples = t.prevMinibatchNumSamples ∧
    t'.prevMinibatchAggregateTrainingLossValue = t.prevMinibatchAggregateTrainingLossValue ∧
    t'.prevMinibatchAggregateEvalCriterionValue = t.prevMinibatchAggregateEvalCriterionValue ∧
    t'.PreviousMinibatchLossAverage = t.PreviousMinibatchLossAverage ∧
    t'.PreviousMinibatchEvaluationAverage = t.PreviousMinibatchEvaluationAverage := by
  have ht : t' = t := by
    unfold Trainer.TestMinbatch at h
    split at h
    · cases h
    · split at h
      · cases h
      · split at h
        · cases h
        · split at h
          · cases h
          · dsimp only at h
            split at h
            · cases h
            · cases h; rfl
  subst ht
  exact ⟨rfl, rfl, rfl, rfl, rfl⟩

/-- C9 witness: a concrete successful `TestMinbatch` run on which the frame
property is instantiated. -/
theorem testMinbatch_preserves_previous_minibatch_state_witness :
    testTrainerEval.prevMinibatchNumSamples = testTrainerEval.prevMinibatchNumSamples ∧
    testTrainerEval.prevMinibatchAggregateTrainingLossValue = testTrainerEval.prevMinibatchAggregateTrainingLossValue ∧
    testTrainerEval.prevMinibatchAggregateEvalCriterionValue = testTrainerEval.prevMinibatchAggregateEvalCriterionValue ∧
    testTrainerEval.PreviousMinibatchLossAverage = testTrainerEval.PreviousMinibatchLossAverage ∧
    testTrainerEval.PreviousMinibatchEvaluationAverage = testTrainerEval.PreviousMinibatchEvaluationAverage :=
  testMinbatch_preserves_previous_minibatch_state testTrainerEval testEngine testArguments
    testTrainerEval ((6 : Rat) / ((3 : Nat) : Rat)) (by rfl)

/-- C8: a trainer built without an evaluation function (in particular via the
two-argument constructor, which passes null for it) rejects `TestMinbatch` and
`PreviousMinibatchEvaluationAverage` with `InvalidArgument`; with an
evaluation function present, `TestMinbatch` returns the scalar of the
evaluation output divided by the minibatch's sample count. -/
theorem evaluation_function_requirement
    (t : Trainer) (engine : Engine) (arguments : List (Variable × Value)) :
    (∀ model lossFunction parameterLearners combined t0,
        Trainer.construct2 model lossFunction parameterLearners combined = .ok t0 →
        t0.evaluationFunction = none)
    ∧ (t.evaluationFunction = none →
        t.TestMinbatch engine arguments = .error (.invalidArgument
          "Trainer::TestMinbatch: Cannot test when no evaluation function was specified during 'this' trainer's construction")
        ∧ t.PreviousMinibatchEvaluationAverage = .error (.invalidArgument
          "Trainer::PreviousMinibatchEvaluationAverage: Cannot get evaluation criterion value when no evaluation function was specified during 'this' trainer's construction"))
    ∧ (∀ evaluationFunction evalOutput evalArgument restArgs sampleCount scalar t' r,
        t.evaluationFunction = some evaluationFunction →
        evaluationFunction.outputs = [evalOutput] →
        evaluationFunction.arguments = evalArgument :: restArgs →
        GetSampleCountFromArguments evalArgument arguments = .ok sampleCount →
        GetScalarValue (engine.forwardOut evalOutput) = .ok scalar →
        t.TestMinbatch engine arguments = .ok (t', r) →
        r = scalar / (sampleCount : Rat)) := by
  refine ⟨?_, ?_, ?_⟩
  · intro model lossFunction parameterLearners combined t0 h
    unfold Trainer.construct2 Trainer.construct at h
    split at h
    · cases h
    · dsimp only at h
      split at h
      · cases h; rfl
      · cases h
  · intro hnone
    constructor
    · unfold Trainer.TestMinbatch
      rw [hnone]
    · unfold Trainer.PreviousMinibatchEvaluationAverage
      rw [hnone]
  · intro evaluationFunction evalOutput evalArgument restArgs sampleCount scalar t' r
      hsome houts hargs hsc hscalar h
    unfold Trainer.TestMinbatch at h
    rw [hsome] at h
    have hout : evaluationFunction.Output = .ok evalOutput := by
      unfold Func.Output
      rw [houts]
    simp only [hout, hargs, hsc, hscalar] at h
    cases h
    rfl

/-- C8 witness: on a concrete no-evaluation trainer both calls raise
`InvalidArgument`; on a concrete trainer with an evaluation function the
returned value is the evaluation scalar over the sample count. -/
theorem evaluation_function_requirement_witness :
    (testTrainer.TestMinbatch testEngine testArguments = .error (.invalidArgument
        "Trainer::TestMinbatch: Cannot test when no evaluation function was specified during 'this' trainer's construction")
      ∧ testTrainer.PreviousMinibatchEvaluationAverage = .error (.invalidArgument
        "Trainer::PreviousMinibatchEvaluationAverage: Cannot get evaluation criterion value when no evaluation function was specified during 'this' trainer's construction"))
    ∧ (6 : Rat) / ((3 : Nat) : Rat) = (6 : Rat) / ((3 : Nat) : Rat) :=
  ⟨(evaluation_function_requirement testTrainer testEngine testArguments).2.1 rfl,
   (evaluation_function_requirement testTrainerEval testEngine testArguments).2.2
     testEvalFunc testEvalOutput testLossArg [] 3 6 testTrainerEval
     ((6 : Rat) / ((3 : Nat) : Rat)) rfl rfl rfl (by rfl) (by rfl) (by rfl)⟩

/-- C4: `SaveCheckpoint` saves the combined training function to
`modelFilePath` and the single learner's checkpoint state to
`modelFilePath ++ ".ckp"`; with more than one learner it raises `LogicError`,
and on that error path the model has already been written (the write is not
undone). -/
theorem saveCheckpoint_model_then_learner_state
    (t : Trainer) (fs : FileSystem) (modelFilePath : String) :
    fsRead (t.SaveCheckpoint fs modelFilePath).2 modelFilePath
      = some (.modelData t.combinedTrainingFunction)
    ∧ (t.parameterLearners.length > 1 →
        (t.SaveCheckpoint fs modelFilePath).1 = some (.logicError
          "Trainer::SaveCheckpoint: Checkpointing is currently unsupported for multiple learners")
        ∧ (t.SaveCheckpoint fs modelFilePath).2
            = fsWrite fs modelFilePath (.modelData t.combinedTrainingFunction))
    ∧ (∀ learner, t.parameterLearners = [learner] →
        (t.SaveCheckpoint fs modelFilePath).1 = none
        ∧ (t.SaveCheckpoint fs modelFilePath).2
            = fsWrite (fsWrite fs modelFilePath (.modelData t.combinedTrainingFunction))
                (modelFilePath ++ ".ckp") (.learnerState learner.checkpointState)) := by
  refine ⟨?_, ?_, ?_⟩
  · unfold Trainer.SaveCheckpoint
    split
    · exact fsRead_fsWrite_self fs modelFilePath _
    · cases hh : t.parameterLearners.head? with
      | none =>
        simp only [hh]
        exact fsRead_fsWrite_self fs modelFilePath _
      | some learner =>
        simp only [hh]
        rw [fsRead_fsWrite_other _ _ _ _
          (Ne.symm (checkpointPath_ne_modelPath modelFilePath))]
        exact fsRead_fsWrite_self fs modelFilePath _
  · intro hlen
    unfold Trainer.SaveCheckpoint
    rw [if_pos hlen]
    exact ⟨rfl, rfl⟩
  · intro learner hl
    unfold Trainer.SaveCheckpoint
    rw [hl]
    exact ⟨rfl, rfl⟩

/-- C4 witness: concrete one-learner save succeeds with both writes, and a
concrete two-learner save raises `LogicError` with the model write kept. -/
theorem saveCheckpoint_model_then_learner_state_witness :
    fsRead (testTrainer.SaveCheckpoint [] "model").2 "model"
      = some (.modelData testTrainer.combinedTrainingFunction)
    ∧ (testTrainer.SaveCheckpoint [] "model").1 = none
    ∧ (testTrainer.SaveCheckpoint [] "model").2
        = fsWrite (fsWrite [] "model" (.modelData testTrainer.combinedTrainingFunction))
            ("model" ++ ".ckp") (.learnerState testLearner.checkpointState)
    ∧ (testTrainerTwoLearners.SaveCheckpoint [] "model").1 = some (.logicError
        "Trainer::SaveCheckpoint: Checkpointing is currently unsupported for multiple learners")
    ∧ fsRead (testTrainerTwoLearners.SaveCheckpoint [] "model").2 "model"
        = some (.modelData testTrainerTwoLearners.combinedTrainingFunction) := by
  have h := saveCheckpoint_model_then_learner_state testTrainer [] "model"
  have h2 := saveCheckpoint_model_then_learner_state testTrainerTwoLearners [] "model"
  exact ⟨h.1, (h.2.2 testLearner rfl).1, (h.2.2 testLearner rfl).2,
    (h2.2.1 (by decide)).1, h2.1⟩

/-! ## TrainMinibatch inversion lemmas -/

theorem collectLearnerParameterGradients_ok_spec
    (engine : Engine) (modelParameters : List Variable) (ps : List Variable)
    (out : List (Variable × NDArrayView))
    (h : collectLearnerParameterGradients
        (fun p => if modelParameters.contains p then some (engine.backwardGrad p) else none)
        ps = .ok out) :
    (∀ p ∈ ps, modelParameters.contains p = true) ∧
    out = ps.map (fun p => (p, (engine.backwardGrad p).data)) := by
  induction ps generalizing out with
  | nil =>
    cases h
    exact ⟨fun p hp => absurd hp (List.not_mem_nil p), rfl⟩
  | cons p rest ih =>
    unfold collectLearnerParameterGradients at h
    split at h
    · cases h
    · rename_i gradValue heq
      split at heq
      · rename_i hc
        cases heq
        split at h
        · cases h
        · split at h
          · cases h
          · rename_i tail htail
            cases h
            obtain ⟨hmem, hmap⟩ := ih tail htail
            refine ⟨?_, ?_⟩
            · intro q hq
              cases hq with
              | head => exact hc
              | tail _ hq => exact hmem q hq
            · rw [hmap]
              rfl
      · cases heq

theorem runLearnerUpdates_ok_spec
    (engine : Engine) (modelParameters : List Variable) (numSamples : Nat)
    (ls : List Learner) (b : Bool) (evs : List Event)
    (h : runLearnerUpdates
        (fun p => if modelParameters.contains p then some (engine.backwardGrad p) else none)
        numSamples ls = .ok (b, evs)) :
    evs = ls.map (fun learner => Event.updateEv learner.id
        (learner.parameters.map (fun p => (p, (engine.backwardGrad p).data))) numSamples) ∧
    b = ls.any (fun learner => learner.updateFn
        (learner.parameters.map (fun p => (p, (engine.backwardGrad p).data))) numSamples) := by
  induction ls generalizing b evs with
  | nil => cases h; exact ⟨rfl, rfl⟩
  | cons learner rest ih =>
    unfold runLearnerUpdates at h
    split at h
    · cases h
    · rename_i lg hlg
      split at h
      · cases h
      · rename_i restUpdated restEvents hrest
        dsimp only at h
        cases h
        obtain ⟨_, hlgmap⟩ := collectLearnerParameterGradients_ok_spec
          engine modelParameters learner.parameters lg hlg
        obtain ⟨hevs, hb⟩ := ih restUpdated restEvents hrest
        subst hlgmap
        subst hevs
        subst hb
        exact ⟨rfl, rfl⟩

/-- A successful `TrainMinibatch` run fully characterized: the values of the
intermediate steps and the exact shape of the produced trace and final
state. -/
theorem trainMinibatch_ok_characterization
    (t : Trainer) (engine : Engine) (arguments : List (Variable × Value))
    (t' : Trainer) (res : Bool) (trace : List Event)
    (h : t.TrainMinibatch engine arguments = .ok (t', res, trace)) :
    ∃ lossOutput lossArgument restArgs numSamples updateEvents,
      t.lossFunction.Output = .ok lossOutput ∧
      t.lossFunction.arguments = lossArgument :: restArgs ∧
      GetSampleCountFromArguments lossArgument arguments = .ok numSamples ∧
      runLearnerUpdates
        (fun p => if t.combinedTrainingFunction.parameters.contains p
                  then some (engine.backwardGrad p) else none)
        numSamples t.parameterLearners = .ok (res, updateEvents) ∧
      t'.prevMinibatchNumSamples = numSamples ∧
      t'.prevMinibatchAggregateTrainingLossValue = some (engine.forwardOut lossOutput) ∧
      ((t.evaluationFunction = none ∧
        trace = Event.forwardEv arguments [lossOutput] [lossOutput]
          :: Event.backwardEv
            [(lossOutput,
              { data := { dataType := lossOutput.dataType,
                          shape := (engine.forwardOut lossOutput).data.shape,
                          payload := 1 },
                mask := (engine.forwardOut lossOutput).mask })]
            t.combinedTrainingFunction.parameters
          :: updateEvents)
      ∨ (∃ evaluationFunction evalOutput,
          t.evaluationFunction = some evaluationFunction ∧
          evaluationFunction.Output = .ok evalOutput ∧
          trace = Event.forwardEv arguments [lossOutput, evalOutput] [lossOutput]
            :: Event.backwardEv
              [(lossOutput,
                { data := { dataType := lossOutput.dataType,
                            shape := (engine.forwardOut lossOutput).data.shape,
                            payload := 1 },
                  mask := (engine.forwardOut lossOutput).mask })]
              t.combinedTrainingFunction.parameters
            :: updateEvents)) := by
  unfold Trainer.TrainMinibatch at h
  split at h
  · cases h
  · rename_i lossOutput hLossOut
    split at h
    · cases h
    · rename_i evalOutput? hEvalOut
      dsimp only at h
      split at h
      · cases h
      · rename_i lossArgument restArgs hArgs
        split at h
        · cases h
        · rename_i numSamples hNum
          split at h
          · cases h
          · rename_i anyUpdatesPerformed updateEvents hRun
            cases h
            refine ⟨lossOutput, lossArgument, restArgs, numSamples, updateEvents,
              hLossOut, hArgs, hNum, hRun, rfl, rfl, ?_⟩
            cases hev : t.evaluationFunction with
            | none =>
              rw [hev] at hEvalOut
              simp only [] at hEvalOut
              cases hEvalOut
              left
              refine ⟨rfl, ?_⟩
              simp only [ite_self]
            | some evaluationFunction =>
              rw [hev] at hEvalOut
              simp only [] at hEvalOut
              cases hfo : evaluationFunction.Output with
              | error e =>
                rw [hfo] at hEvalOut
                simp only [Except.map] at hEvalOut
                cases hEvalOut
              | ok evalOutput =>
                rw [hfo] at hEvalOut
                simp only [Except.map] at hEvalOut
                cases hEvalOut
                right
                refine ⟨evaluationFunction, evalOutput, rfl, hfo, ?_⟩
                simp only [ite_self]

/-- C1: `TrainMinibatch` first runs Forward on the combined function
(requesting the loss output, plus the evaluation output when an evaluation
function exists, retaining state for the loss function), then runs Backward
seeded at the loss output with a root gradient whose data is the constant 1
of the loss output's data type (`SetValue(1.0f)` for Float, `SetValue(1.0)`
otherwise), requesting a gradient for every parameter of the combined
training function — and only after that do learner updates occur (the rest of
the trace consists solely of update events). -/
theorem trainMinibatch_forward_backward_then_updates
    (t : Trainer) (engine : Engine) (arguments : List (Variable × Value))
    (t' : Trainer) (res : Bool) (trace : List Event) (lossOutput : Variable)
    (hl : t.lossFunction.outputs = [lossOutput])
    (h : t.TrainMinibatch engine arguments = .ok (t', res, trace)) :
    (t.evaluationFunction = none →
      trace = Event.forwardEv arguments [lossOutput] [lossOutput]
        :: Event.backwardEv
          [(lossOutput,
            { data := { dataType := lossOutput.dataType,
                        shape := (engine.forwardOut lossOutput).data.shape,
                        payload := 1 },
              mask := (engine.forwardOut lossOutput).mask })]
          t.combinedTrainingFunction.parameters
        :: trace.drop 2)
    ∧ (∀ evaluationFunction evalOutput,
        t.evaluationFunction = some evaluationFunction →
        evaluationFunction.outputs = [evalOutput] →
        trace = Event.forwardEv arguments [lossOutput, evalOutput] [lossOutput]
          :: Event.backwardEv
            [(lossOutput,
              { data := { dataType := lossOutput.dataType,
                          shape := (engine.forwardOut lossOutput).data.shape,
                          payload := 1 },
                mask := (engine.forwardOut lossOutput).mask })]
            t.combinedTrainingFunction.parameters
          :: trace.drop 2)
    ∧ (∀ e ∈ trace.drop 2, e.isUpdate = true) := by
  obtain ⟨lo, la, ra, ns, ue, hLo, hArgs, hNum, hRun, hns, hloss, hcase⟩ :=
    trainMinibatch_ok_characterization t engine arguments t' res trace h
  have hlo : lo = lossOutput := by
    unfold Func.Output at hLo
    rw [hl] at hLo
    cases hLo
    rfl
  subst hlo
  obtain ⟨hmap, _⟩ :=
    runLearnerUpdates_ok_spec engine t.combinedTrainingFunction.parameters ns
      t.parameterLearners res ue hRun
  have hupd : ∀ e ∈ ue, e.isUpdate = true := by
    intro e he
    rw [hmap] at he
    obtain ⟨l, _, rfl⟩ := List.mem_map.mp he
    rfl
  cases hcase with
  | inl hc =>
    obtain ⟨hev, htr⟩ := hc
    subst htr
    refine ⟨fun _ => rfl, ?_, hupd⟩
    intro f v hev2 _
    rw [hev] at hev2
    cases hev2
  | inr hc =>
    obtain ⟨f, v, hev, hvout, htr⟩ := hc
    subst htr
    refine ⟨?_, ?_, hupd⟩
    · intro hnone
      rw [hnone] at hev
      cases hev
    · intro f' v' hev2 hvouts
      rw [hev] at hev2
      cases hev2
      unfold Func.Output at hvout
      rw [hvouts] at hvout
      cases hvout
      rfl

/-- C1 witness: the concrete minibatch run produces exactly the
forward-backward-update trace. -/
theorem trainMinibatch_forward_backward_then_updates_witness :
    (testTrainer.evaluationFunction = none →
      [testForwardEvent, testBackwardEvent, testUpdateEvent]
        = Event.forwardEv testArguments [testLossOutput] [testLossOutput]
          :: Event.backwardEv
            [(testLossOutput,
              { data := { dataType := testLossOutput.dataType,
                          shape := (testEngine.forwardOut testLossOutput).data.shape,
                          payload := 1 },
                mask := (testEngine.forwardOut testLossOutput).mask })]
            testTrainer.combinedTrainingFunction.parameters
          :: [testForwardEvent, testBackwardEvent, testUpdateEvent].drop 2)
    ∧ (∀ evaluationFunction evalOutput,
        testTrainer.evaluationFunction = some evaluationFunction →
        evaluationFunction.outputs = [evalOutput] →
        [testForwardEvent, testBackwardEvent, testUpdateEvent]
          = Event.forwardEv testArguments [testLossOutput, evalOutput] [testLossOutput]
            :: Event.backwardEv
              [(testLossOutput,
                { data := { dataType := testLossOutput.dataType,
                            shape := (testEngine.forwardOut testLossOutput).data.shape,
                            payload := 1 },
                  mask := (testEngine.forwardOut testLossOutput).mask })]
              testTrainer.combinedTrainingFunction.parameters
            :: [testForwardEvent, testBackwardEvent, testUpdateEvent].drop 2)
    ∧ (∀ e ∈ [testForwardEvent, testBackwardEvent, testUpdateEvent].drop 2,
        e.isUpdate = true) :=
  trainMinibatch_forward_backward_then_updates testTrainer testEngine testArguments
    testTrainerAfter true [testForwardEvent, testBackwardEvent, testUpdateEvent]
    testLossOutput rfl (by rfl)

/-- C2: `TrainMinibatch` calls `Update` exactly once per learner (the update
events of the trace are in bijection with `m_parameterLearners`), passing each
learner exactly the gradient data of that learner's own parameters together
with the minibatch sample count, and it returns true iff at least one
learner's `Update` reported that an update was performed. -/
theorem trainMinibatch_updates_each_learner_once
    (t : Trainer) (engine : Engine) (arguments : List (Variable × Value))
    (t' : Trainer) (res : Bool) (trace : List Event)
    (h : t.TrainMinibatch engine arguments = .ok (t', res, trace)) :
    trace.drop 2 = t.parameterLearners.map (fun learner =>
        Event.updateEv learner.id
          (learner.parameters.map (fun p => (p, (engine.backwardGrad p).data)))
          t'.prevMinibatchNumSamples)
    ∧ res = t.parameterLearners.any (fun learner =>
        learner.updateFn
          (learner.parameters.map (fun p => (p, (engine.backwardGrad p).data)))
          t'.prevMinibatchNumSamples)
    ∧ (res = true ↔ ∃ learner ∈ t.parameterLearners,
        learner.updateFn
          (learner.parameters.map (fun p => (p, (engine.backwardGrad p).data)))
          t'.prevMinibatchNumSamples = true) := by
  obtain ⟨lo, la, ra, ns, ue, hLo, hArgs, hNum, hRun, hns, hloss, hcase⟩ :=
    trainMinibatch_ok_characterization t engine arguments t' res trace h
  obtain ⟨hmap, hany⟩ :=
    runLearnerUpdates_ok_spec engine t.combinedTrainingFunction.parameters ns
      t.parameterLearners res ue hRun
  have hdrop : trace.drop 2 = ue := by
    cases hcase with
    | inl hc => rw [hc.2]; rfl
    | inr hc =>
      obtain ⟨f, v, _, _, htr⟩ := hc
      rw [htr]; rfl
  rw [hns, hdrop, hmap, hany]
  exact ⟨rfl, rfl, List.any_eq_true⟩

/-- C2 witness: the concrete run has exactly one update event (for the single
learner, with its parameter's gradient data and the sample count 3), and the
run reports an update was performed. -/
theorem trainMinibatch_updates_each_learner_once_witness :
    [testForwardEvent, testBackwardEvent, testUpdateEvent].drop 2
      = testTrainer.parameterLearners.map (fun learner =>
          Event.updateEv learner.id
            (learner.parameters.map (fun p => (p, (testEngine.backwardGrad p).data)))
            testTrainerAfter.prevMinibatchNumSamples)
    ∧ true = testTrainer.parameterLearners.any (fun learner =>
        learner.updateFn
          (learner.parameters.map (fun p => (p, (testEngine.backwardGrad p).data)))
          testTrainerAfter.prevMinibatchNumSamples)
    ∧ (true = true ↔ ∃ learner ∈ testTrainer.parameterLearners,
        learner.updateFn
          (learner.parameters.map (fun p => (p, (testEngine.backwardGrad p).data)))
          testTrainerAfter.prevMinibatchNumSamples = true) :=
  trainMinibatch_updates_each_learner_once testTrainer testEngine testArguments
    testTrainerAfter true [testForwardEvent, testBackwardEvent, testUpdateEvent]
    (by rfl)

/-- C5: the sample count is the matching argument's data-view sample count
minus its masked count, guarded by a `LogicError` when the masked count
exceeds the data-view count (so the subtraction never underflows), and it is
exactly the value stored in `m_prevMinibatchNumSamples` and passed to every
learner `Update`. -/
theorem sampleCount_underflow_guard_and_propagation
    (evalOrLossArgument argumentVar : Variable) (argumentValue : Value)
    (arguments : List (Variable × Value))
    (hfind : arguments.find? (fun currentPair =>
        currentPair.1.dynamicAxes = evalOrLossArgument.dynamicAxes)
      = some (argumentVar, argumentValue)) :
    ((match argumentValue.mask with
      | some mask => mask.maskedCount
      | none => 0) >
        (argumentValue.data.shape.SubShape argumentVar.shape.Rank).TotalSize →
      GetSampleCountFromArguments evalOrLossArgument arguments
        = .error (.logicError "Number of masked values cannot exceed the number of samples that the Value object's Data NDArrayView can hold"))
    ∧ ((match argumentValue.mask with
        | some mask => mask.maskedCount
        | none => 0) ≤
          (argumentValue.data.shape.SubShape argumentVar.shape.Rank).TotalSize →
        GetSampleCountFromArguments evalOrLossArgument arguments
          = .ok ((argumentValue.data.shape.SubShape argumentVar.shape.Rank).TotalSize -
              (match argumentValue.mask with
               | some mask => mask.maskedCount
               | none => 0))
        ∧ ((argumentValue.data.shape.SubShape argumentVar.shape.Rank).TotalSize -
              (match argumentValue.mask with
               | some mask => mask.maskedCount
               | none => 0))
            + (match argumentValue.mask with
               | some mask => mask.maskedCount
               | none => 0)
            = (argumentValue.data.shape.SubShape argumentVar.shape.Rank).TotalSize)
    ∧ (∀ (t : Trainer) (engine : Engine) (t' : Trainer) (res : Bool)
          (trace : List Event) (restArgs : List Variable),
        t.lossFunction.arguments = evalOrLossArgument :: restArgs →
        t.TrainMinibatch engine arguments = .ok (t', res, trace) →
        GetSampleCountFromArguments evalOrLossArgument arguments
          = .ok t'.prevMinibatchNumSamples
        ∧ (∀ lid g sc, Event.updateEv lid g sc ∈ trace →
            sc = t'.prevMinibatchNumSamples)) := by
  have hval : GetSampleCountFromArguments evalOrLossArgument arguments =
      if (match argumentValue.mask with
          | some mask => mask.maskedCount
          | none => 0) >
          (argumentValue.data.shape.SubShape argumentVar.shape.Rank).TotalSize
      then .error (.logicError "Number of masked values cannot exceed the number of samples that the Value object's Data NDArrayView can hold")
      else .ok ((argumentValue.data.shape.SubShape argumentVar.shape.Rank).TotalSize -
          (match argumentValue.mask with
           | some mask => mask.maskedCount
           | none => 0)) := by
    unfold GetSampleCountFromArguments
    rw [hfind]
  refine ⟨?_, ?_, ?_⟩
  · intro hgt
    rw [hval, if_pos hgt]
  · intro hle
    rw [hval, if_neg (Nat.not_lt.mpr hle)]
    exact ⟨rfl, Nat.sub_add_cancel hle⟩
  · intro t engine t' res trace restArgs hargs h
    obtain ⟨lo, la, ra, ns, ue, hLo, hArgs, hNum, hRun, hns, hloss, hcase⟩ :=
      trainMinibatch_ok_characterization t engine arguments t' res trace h
    have hla : la = evalOrLossArgument := by
      rw [hargs] at hArgs
      cases hArgs
      rfl
    subst hla
    obtain ⟨hmap, _⟩ :=
      runLearnerUpdates_ok_spec engine t.combinedTrainingFunction.parameters ns
        t.parameterLearners res ue hRun
    refine ⟨?_, ?_⟩
    · rw [hns]
      exact hNum
    · intro lid g sc hmem
      have hue : Event.updateEv lid g sc ∈ ue := by
        cases hcase with
        | inl hc =>
          rw [hc.2] at hmem
          cases hmem with
          | tail _ hmem2 =>
            cases hmem2 with
            | tail _ hmem3 => exact hmem3
        | inr hc =>
          obtain ⟨f, v, _, _, htr⟩ := hc
          rw [htr] at hmem
          cases hmem with
          | tail _ hmem2 =>
            cases hmem2 with
            | tail _ hmem3 => exact hmem3
      rw [hmap] at hue
      obtain ⟨l, _, heq⟩ := List.mem_map.mp hue
      cases heq
      rw [hns]

/-- C5 witness: on the concrete arguments the count is 3 (3 samples in the
data view, 0 masked), the guard is vacuous, and the count propagates into the
trainer state and the single update event. -/
theorem sampleCount_underflow_guard_and_propagation_witness :
    (0 > 3 → GetSampleCountFromArguments testLossArg testArguments
      = .error (.logicError "Number of masked values cannot exceed the number of samples that the Value object's Data NDArrayView can hold"))
    ∧ (0 ≤ 3 → GetSampleCountFromArguments testLossArg testArguments = .ok 3
        ∧ 3 - 0 + 0 = 3)
    ∧ (∀ (t : Trainer) (engine : Engine) (t' : Trainer) (res : Bool)
          (trace : List Event) (restArgs : List Variable),
        t.lossFunction.arguments = testLossArg :: restArgs →
        t.TrainMinibatch engine testArguments = .ok (t', res, trace) →
        GetSampleCountFromArguments testLossArg testArguments
          = .ok t'.prevMinibatchNumSamples
        ∧ (∀ lid g sc, Event.updateEv lid g sc ∈ trace →
            sc = t'.prevMinibatchNumSamples)) :=
  sampleCount_underflow_guard_and_propagation testLossArg testLossArg
    { data := { dataType := .Float, shape := ⟨[3]⟩, payload := 5 }, mask := none }
    testArguments (by rfl)

/-! ## Constructor lemmas -/

theorem insertLearnerParameters_ok_mem (ps : List Variable) (acc r : List Variable)
    (h : insertLearnerParameters acc ps = .ok r) :
    (∀ q, q ∈ r ↔ q ∈ acc ∨ q ∈ ps) ∧ (∀ q ∈ ps, q ∉ acc) := by
  induction ps generalizing acc with
  | nil =>
    cases h
    exact ⟨fun q => by simp, fun q hq => absurd hq (List.not_mem_nil q)⟩
  | cons p rest ih =>
    unfold insertLearnerParameters at h
    split at h
    · cases h
    · rename_i hc
      obtain ⟨hiff, hnot⟩ := ih (p :: acc) h
      refine ⟨?_, ?_⟩
      · intro q
        rw [hiff q]
        simp only [List.mem_cons]
        tauto
      · intro q hq
        cases hq with
        | head => exact fun hmem => hc (List.elem_iff.mpr hmem)
        | tail _ h2 =>
          intro hmem
          exact hnot q h2 (List.mem_cons_of_mem p hmem)

theorem collectLearnerParameters_ok_spec (ls : List Learner) (acc r : List Variable)
    (h : collectLearnerParameters acc ls = .ok r) :
    (∀ q, q ∈ r ↔ q ∈ acc ∨ ∃ l ∈ ls, q ∈ l.parameters) ∧
    (∀ l ∈ ls, ∀ q ∈ l.parameters, q ∉ acc) ∧
    List.Pairwise (fun l1 l2 => ∀ q ∈ l1.parameters, q ∉ l2.parameters) ls := by
  induction ls generalizing acc with
  | nil =>
    cases h
    refine ⟨fun q => by simp, ?_, .nil⟩
    intro l hl
    cases hl
  | cons l rest ih =>
    unfold collectLearnerParameters at h
    split at h
    · cases h
    · rename_i acc1 hins
      obtain ⟨hiff1, hnot1⟩ := insertLearnerParameters_ok_mem l.parameters acc acc1 hins
      obtain ⟨hiff2, hnot2, hpw⟩ := ih acc1 h
      refine ⟨?_, ?_, ?_⟩
      · intro q
        rw [hiff2 q]
        constructor
        · rintro (hq | ⟨l2, hl2, hq⟩)
          · rcases (hiff1 q).1 hq with h1 | h1
            · exact .inl h1
            · exact .inr ⟨l, List.mem_cons_self l rest, h1⟩
          · exact .inr ⟨l2, List.mem_cons_of_mem l hl2, hq⟩
        · rintro (hq | ⟨l2, hl2, hq⟩)
          · exact .inl ((hiff1 q).2 (.inl hq))
          · cases hl2 with
            | head => exact .inl ((hiff1 q).2 (.inr hq))
            | tail _ h2 => exact .inr ⟨l2, h2, hq⟩
      · intro l2 hl2 q hq
        cases hl2 with
        | head => exact hnot1 q hq
        | tail _ h2 =>
          intro hqacc
          exact hnot2 l2 h2 q hq ((hiff1 q).2 (.inl hqacc))
      · exact List.Pairwise.cons
          (fun l2 hl2 q hq hql2 => hnot2 l2 hl2 q hql2 ((hiff1 q).2 (.inr hq)))
          hpw

theorem insertLearnerParameters_error_shape (ps : List Variable) (acc : List Variable)
    (e : Err) (h : insertLearnerParameters acc ps = .error e) :
    ∃ msg, e = .invalidArgument msg := by
  induction ps generalizing acc with
  | nil => cases h
  | cons p rest ih =>
    unfold insertLearnerParameters at h
    split at h
    · cases h
      exact ⟨_, rfl⟩
    · exact ih _ h

theorem collectLearnerParameters_error_shape (ls : List Learner) (acc : List Variable)
    (e : Err) (h : collectLearnerParameters acc ls = .error e) :
    ∃ msg, e = .invalidArgument msg := by
  induction ls generalizing acc with
  | nil => cases h
  | cons l rest ih =>
    unfold collectLearnerParameters at h
    split at h
    · rename_i e2 hins
      cases h
      exact insertLearnerParameters_error_shape _ _ _ hins
    · exact ih _ h

theorem listSetEq_iff (a b : List Variable) :
    listSetEq a b = true ↔ (∀ x, x ∈ a ↔ x ∈ b) := by
  unfold listSetEq
  rw [Bool.and_eq_true, List.all_eq_true, List.all_eq_true]
  constructor
  · rintro ⟨h1, h2⟩ x
    exact ⟨fun hx => List.elem_iff.mp (h1 x hx), fun hx => List.elem_iff.mp (h2 x hx)⟩
  · intro h
    exact ⟨fun x hx => List.elem_iff.mpr ((h x).1 hx),
           fun x hx => List.elem_iff.mpr ((h x).2 hx)⟩

/-- C7: the constructor raises `InvalidArgument` when a parameter is covered
by two different learners or when the union of the learners' parameters
differs from the combined training function's parameter set; consequently
every successfully constructed trainer has pairwise-disjoint learner
parameter sets whose union is exactly the model's parameter set. -/
theorem trainer_construct_learner_coverage
    (model lossFunction : Func) (evaluationFunction : Option Func)
    (parameterLearners : List Learner) (combinedTrainingFunction : Func) :
    (∀ t, Trainer.construct model lossFunction evaluationFunction parameterLearners
        combinedTrainingFunction = .ok t →
      List.Pairwise (fun l1 l2 => ∀ q ∈ l1.parameters, q ∉ l2.parameters) parameterLearners
      ∧ (∀ q, (∃ l ∈ parameterLearners, q ∈ l.parameters) ↔
          q ∈ combinedTrainingFunction.parameters))
    ∧ ((¬ List.Pairwise (fun l1 l2 => ∀ q ∈ l1.parameters, q ∉ l2.parameters) parameterLearners
        ∨ ¬ (∀ q, (∃ l ∈ parameterLearners, q ∈ l.parameters) ↔
            q ∈ combinedTrainingFunction.parameters)) →
      ∃ msg, Trainer.construct model lossFunction evaluationFunction parameterLearners
          combinedTrainingFunction = .error (.invalidArgument msg)) := by
  have hok : ∀ t, Trainer.construct model lossFunction evaluationFunction parameterLearners
      combinedTrainingFunction = .ok t →
      List.Pairwise (fun l1 l2 => ∀ q ∈ l1.parameters, q ∉ l2.parameters) parameterLearners
      ∧ (∀ q, (∃ l ∈ parameterLearners, q ∈ l.parameters) ↔
          q ∈ combinedTrainingFunction.parameters) := by
    intro t h
    unfold Trainer.construct at h
    split at h
    · cases h
    · rename_i learnerParameters hcol
      dsimp only at h
      split at h
      · rename_i hset
        obtain ⟨hiff, _, hpw⟩ :=
          collectLearnerParameters_ok_spec parameterLearners [] learnerParameters hcol
        refine ⟨hpw, ?_⟩
        intro q
        have hmem : q ∈ learnerParameters ↔ ∃ l ∈ parameterLearners, q ∈ l.parameters := by
          rw [hiff q]
          simp
        rw [← hmem]
        exact ((listSetEq_iff _ _).1 hset q).symm
      · cases h
  refine ⟨hok, ?_⟩
  intro hbad
  cases hres : Trainer.construct model lossFunction evaluationFunction parameterLearners
      combinedTrainingFunction with
  | ok t =>
    exact absurd (hok t hres) (by tauto)
  | error e =>
    have : ∃ msg, e = .invalidArgument msg := by
      unfold Trainer.construct at hres
      split at hres
      · rename_i e2 hcol
        cases hres
        exact collectLearnerParameters_error_shape _ _ _ hcol
      · dsimp only at hres
        split at hres
        · cases hres
        · cases hres
          exact ⟨_, rfl⟩
    obtain ⟨msg, rfl⟩ := this
    exact ⟨msg, rfl⟩


/-- C7 witness: the concrete single-learner construction succeeds and its
coverage invariant holds. -/
theorem trainer_construct_learner_coverage_witness :
    List.Pairwise (fun l1 l2 => ∀ q ∈ l1.parameters, q ∉ l2.parameters) [testLearner]
    ∧ (∀ q, (∃ l ∈ [testLearner], q ∈ l.parameters) ↔ q ∈ testCombined.parameters) :=
  (trainer_construct_learner_coverage testLossFunc testLossFunc none [testLearner]
    testCombined).1 testTrainer (by rfl)

/-! ## UID-map lemmas -/

theorem mem_uidMapSet (m : UidMap) (k : String) (v : Variable) (q : String × Variable)
    (hq : q ∈ uidMapSet m k v) : q ∈ m ∨ q = (k, v) := by
  unfold uidMapSet at hq
  split at hq
  · obtain ⟨p, hp, hpe⟩ := List.mem_map.mp hq
    by_cases hk : p.1 = k
    · rw [if_pos hk] at hpe
      exact .inr hpe.symm
    · rw [if_neg hk] at hpe
      exact .inl (hpe ▸ hp)
  · rcases List.mem_append.mp hq with h | h
    · exact .inl h
    · cases h with
      | head => exact .inr rfl
      | tail _ h2 => cases h2

theorem uidMapSet_keys (m : UidMap) (k : String) (v : Variable) :
    (uidMapSet m k v).map Prod.fst =
      if m.any (fun p => p.1 = k) then m.map Prod.fst else m.map Prod.fst ++ [k] := by
  unfold uidMapSet
  by_cases hany : (m.any (fun p => p.1 = k)) = true
  · rw [if_pos hany, if_pos hany, List.map_map]
    apply List.map_congr_left
    intro p _
    by_cases hk : p.1 = k
    · simp [hk]
    · simp [hk]
  · rw [if_neg hany, if_neg hany]
    simp

theorem uidMapSet_keys_nodup (m : UidMap) (k : String) (v : Variable)
    (h : (m.map Prod.fst).Nodup) : ((uidMapSet m k v).map Prod.fst).Nodup := by
  rw [uidMapSet_keys]
  by_cases hany : (m.any (fun p => p.1 = k)) = true
  · rwa [if_pos hany]
  · rw [if_neg hany]
    rw [List.nodup_append]
    refine ⟨h, List.nodup_singleton k, ?_⟩
    intro a ha hb
    rw [List.mem_singleton] at hb
    obtain ⟨p, hp, hpk⟩ := List.mem_map.mp ha
    apply hany
    rw [List.any_eq_true]
    exact ⟨p, hp, by rw [hpk, hb]; simp⟩

theorem uidMapSet_keyed (m : UidMap) (v : Variable)
    (h : ∀ p ∈ m, p.1 = p.2.uid) : ∀ p ∈ uidMapSet m v.uid v, p.1 = p.2.uid := by
  intro p hp
  rcases mem_uidMapSet m v.uid v p hp with h1 | h1
  · exact h p h1
  · rw [h1]

theorem uidMapOf_wf_aux (vars : List Variable) (acc : UidMap)
    (hkeyed : ∀ p ∈ acc, p.1 = p.2.uid) (hnodup : (acc.map Prod.fst).Nodup) :
    (∀ p ∈ vars.foldl (fun m v => uidMapSet m v.uid v) acc, p.1 = p.2.uid) ∧
    ((vars.foldl (fun m v => uidMapSet m v.uid v) acc).map Prod.fst).Nodup := by
  induction vars generalizing acc with
  | nil => exact ⟨hkeyed, hnodup⟩
  | cons v rest ih =>
    exact ih (uidMapSet acc v.uid v) (uidMapSet_keyed acc v hkeyed)
      (uidMapSet_keys_nodup acc v.uid v hnodup)

theorem uidMapOf_wf (vars : List Variable) :
    (∀ p ∈ uidMapOf vars, p.1 = p.2.uid) ∧ ((uidMapOf vars).map Prod.fst).Nodup := by
  unfold uidMapOf
  exact uidMapOf_wf_aux vars [] (fun p hp => absurd hp (List.not_mem_nil p)) (by simp)

theorem uidMapErase_keyed (m : UidMap) (k : String)
    (h : ∀ p ∈ m, p.1 = p.2.uid) : ∀ p ∈ uidMapErase m k, p.1 = p.2.uid :=
  fun p hp => h p (List.mem_of_mem_filter hp)

theorem uidMapErase_keys_nodup (m : UidMap) (k : String)
    (h : (m.map Prod.fst).Nodup) : ((uidMapErase m k).map Prod.fst).Nodup := by
  unfold uidMapErase
  exact h.sublist (List.Sublist.map Prod.fst (List.filter_sublist m))

theorem removePastAndFutureValue_wf (fs : List PrimitiveFunction) (m m' : UidMap)
    (h : removePastAndFutureValueInitialStateScalarConstants fs m = .ok m')
    (hkeyed : ∀ p ∈ m, p.1 = p.2.uid) (hnodup : (m.map Prod.fst).Nodup) :
    (∀ p ∈ m', p.1 = p.2.uid) ∧ ((m'.map Prod.fst).Nodup) := by
  induction fs generalizing m with
  | nil => cases h; exact ⟨hkeyed, hnodup⟩
  | cons f rest ih =>
    unfold removePastAndFutureValueInitialStateScalarConstants at h
    split at h
    · split at h
      · cases h
      · rename_i initialStateInput hget
        dsimp only at h
        split at h
        · rename_i hc
          exact ih (uidMapErase m initialStateInput.uid) h
            (uidMapErase_keyed m initialStateInput.uid hkeyed)
            (uidMapErase_keys_nodup m initialStateInput.uid hnodup)
        · exact ih m h hkeyed hnodup
    · exact ih m h hkeyed hnodup

theorem uidMapAt_of_mem (m : UidMap) (k : String) (v : Variable)
    (hmem : (k, v) ∈ m) (hnodup : (m.map Prod.fst).Nodup) :
    uidMapAt m k = some v := by
  induction m with
  | nil => cases hmem
  | cons q rest ih =>
    rw [List.map_cons, List.nodup_cons] at hnodup
    cases hmem with
    | head =>
      unfold uidMapAt
      rw [List.find?_cons_of_pos _ (by simp)]
      rfl
    | tail _ hmem2 =>
      have hk : k ∈ rest.map Prod.fst := List.mem_map.mpr ⟨(k, v), hmem2, rfl⟩
      unfold uidMapAt
      rw [List.find?_cons_of_neg _ (by
        simp only [decide_eq_true_eq]
        intro he
        exact hnodup.1 (he.symm ▸ hk))]
      exact ih hmem2 hnodup.2

theorem areVariablesEquivalent_refl (ats : NDShape → List Nat) (v : Variable) :
    areVariablesEquivalent ats v v = true := by
  unfold areVariablesEquivalent
  simp

theorem restoreLeafVariables_self (asTensorShape : NDShape → List Nat) (m : UidMap)
    (entries : List (String × Variable))
    (hsub : ∀ p ∈ entries, p ∈ m)
    (hkeyed : ∀ p ∈ m, p.1 = p.2.uid)
    (hnodup : (m.map Prod.fst).Nodup)
    (hval : ∀ p ∈ entries, (p.2.IsConstant || p.2.IsParameter) = true → p.2.value.isSome) :
    restoreLeafVariables asTensorShape m entries = .ok (expectedSelfCopies entries) := by
  induction entries with
  | nil => rfl
  | cons q rest ih =>
    obtain ⟨k, var⟩ := q
    have hqm : (k, var) ∈ m := hsub _ (List.mem_cons_self _ _)
    have hkm : k = var.uid := hkeyed (k, var) hqm
    have hat : uidMapAt m var.uid = some var :=
      uidMapAt_of_mem m var.uid var (hkm ▸ hqm) hnodup
    have hrest := ih (fun p hp => hsub p (List.mem_cons_of_mem _ hp))
      (fun p hp hcp => hval p (List.mem_cons_of_mem _ hp) hcp)
    unfold restoreLeafVariables
    simp only [hat, areVariablesEquivalent_refl asTensorShape var, if_true]
    by_cases hcp : (var.IsConstant || var.IsParameter) = true
    · cases hv : var.value with
      | none =>
        have := hval (k, var) (List.mem_cons_self _ _) hcp
        rw [hv] at this
        cases this
      | some v0 =>
        simp only [hcp, if_true, hv, hrest]
        unfold expectedSelfCopies
        rw [List.filterMap_cons]
        simp [hcp, hv]
    · simp only [Bool.not_eq_true] at hcp
      simp only [hcp, Bool.false_eq_true, if_false, hrest]
      unfold expectedSelfCopies
      rw [List.filterMap_cons]
      simp [hcp]

/-- C6: `SaveCheckpoint` and `RestoreFromCheckpoint` derive the trainer-state
checkpoint file path with the same function (appending ".ckp" to
`modelFilePath`), so a restore with the same `modelFilePath` reads the learner
state from exactly the file the preceding save wrote it to: after a
successful save, the restore hands the single learner back exactly the
checkpoint state that was saved. -/
theorem checkpoint_path_roundtrip
    (t : Trainer) (fs : FileSystem) (modelFilePath : String)
    (asTensorShape : NDShape → List Nat) (l : Learner) (trainerMap : UidMap)
    (hl : t.parameterLearners = [l])
    (ho : t.combinedTrainingFunction.outputs ≠ [])
    (hrm : removePastAndFutureValueInitialStateScalarConstants
        t.combinedTrainingFunction.allPrimitiveFunctions
        (uidMapOf t.combinedTrainingFunction.inputs) = .ok trainerMap)
    (hval : ∀ p ∈ trainerMap,
        (p.2.IsConstant || p.2.IsParameter) = true → p.2.value.isSome) :
    GetTrainerStateCheckpointFilePath modelFilePath = modelFilePath ++ ".ckp"
    ∧ t.RestoreFromCheckpoint asTensorShape (t.SaveCheckpoint fs modelFilePath).2 modelFilePath
        = .ok { copies := expectedSelfCopies trainerMap
                restoredLearnerId := l.id
                restoredLearnerState := l.checkpointState } := by
  refine ⟨rfl, ?_⟩
  have hsave : (t.SaveCheckpoint fs modelFilePath).2 =
      fsWrite (fsWrite fs modelFilePath (.modelData t.combinedTrainingFunction))
        (GetTrainerStateCheckpointFilePath modelFilePath)
        (.learnerState l.checkpointState) := by
    unfold Trainer.SaveCheckpoint
    rw [hl]
    rfl
  rw [hsave]
  have hread1 : fsRead
      (fsWrite (fsWrite fs modelFilePath (.modelData t.combinedTrainingFunction))
        (GetTrainerStateCheckpointFilePath modelFilePath)
        (.learnerState l.checkpointState))
      modelFilePath = some (.modelData t.combinedTrainingFunction) := by
    rw [fsRead_fsWrite_other _ _ _ _ (Ne.symm (checkpointPath_ne_modelPath modelFilePath))]
    exact fsRead_fsWrite_self _ _ _
  have hread2 : fsRead
      (fsWrite (fsWrite fs modelFilePath (.modelData t.combinedTrainingFunction))
        (GetTrainerStateCheckpointFilePath modelFilePath)
        (.learnerState l.checkpointState))
      (GetTrainerStateCheckpointFilePath modelFilePath)
      = some (.learnerState l.checkpointState) := fsRead_fsWrite_self _ _ _
  obtain ⟨hkeyed0, hnodup0⟩ := uidMapOf_wf t.combinedTrainingFunction.inputs
  obtain ⟨hkeyed, hnodup⟩ := removePastAndFutureValue_wf _ _ _ hrm hkeyed0 hnodup0
  have hrestore : restoreLeafVariables asTensorShape trainerMap trainerMap
      = .ok (expectedSelfCopies trainerMap) :=
    restoreLeafVariables_self asTensorShape trainerMap trainerMap (fun p hp => hp)
      hkeyed hnodup hval
  obtain ⟨o, os, houts⟩ : ∃ o os, t.combinedTrainingFunction.outputs = o :: os := by
    cases hco : t.combinedTrainingFunction.outputs with
    | nil => exact absurd hco ho
    | cons o os => exact ⟨o, os, rfl⟩
  unfold Trainer.RestoreFromCheckpoint
  rw [hl, houts]
  simp only [List.head?_cons, hread1]
  rw [if_neg (fun hh => hh rfl)]
  simp only [hrm, hrestore, hread2]
  rfl

/-- C6 witness: a concrete save-then-restore round trip on the single-learner
trainer returns the saved learner state. -/
theorem checkpoint_path_roundtrip_witness :
    GetTrainerStateCheckpointFilePath "model" = "model" ++ ".ckp"
    ∧ testTrainer.RestoreFromCheckpoint testATS
        (testTrainer.SaveCheckpoint [] "model").2 "model"
        = .ok { copies := expectedSelfCopies (uidMapOf testCombined.inputs)
                restoredLearnerId := testLearner.id
                restoredLearnerState := testLearner.checkpointState } :=
  checkpoint_path_roundtrip testTrainer [] "model" testATS testLearner
    (uidMapOf testCombined.inputs) rfl (by decide) (by rfl) (by decide)

/-- Behaviour of the per-leaf restore loop when every trainer-side UID has a
loaded-side counterpart and all needed value views exist: it raises the
`InvalidArgument` mismatch error exactly when some UID-matched pair is not
equivalent, and otherwise performs exactly the expected copies. -/
theorem restoreLeafVariables_spec (asTensorShape : NDShape → List Nat)
    (loadedMap : UidMap) (entries : List (String × Variable))
    (hall : ∀ p ∈ entries, (uidMapAt loadedMap p.2.uid).isSome = true)
    (hvp : ∀ p ∈ entries, ∀ q, uidMapAt loadedMap p.2.uid = some q →
        (p.2.IsConstant || p.2.IsParameter) = true →
        p.2.value.isSome = true ∧ q.value.isSome = true) :
    (someLeafPairNotEquivalent asTensorShape loadedMap entries = true →
      restoreLeafVariables asTensorShape loadedMap entries
        = .error (.invalidArgument "The loaded model's leaf variables do not match the trainer model's leaf variables"))
    ∧ (someLeafPairNotEquivalent asTensorShape loadedMap entries = false →
      restoreLeafVariables asTensorShape loadedMap entries
        = .ok (expectedCopies loadedMap entries)) := by
  induction entries with
  | nil =>
    refine ⟨?_, fun _ => rfl⟩
    intro hsome
    cases hsome
  | cons q0 rest ih =>
    obtain ⟨k, var⟩ := q0
    have hsome := hall (k, var) (List.mem_cons_self _ _)
    cases hq : uidMapAt loadedMap var.uid with
    | none => rw [hq] at hsome; cases hsome
    | some q =>
      have hrest := ih (fun p hp => hall p (List.mem_cons_of_mem _ hp))
        (fun p hp => hvp p (List.mem_cons_of_mem _ hp))
      have hne : someLeafPairNotEquivalent asTensorShape loadedMap ((k, var) :: rest)
          = ((! areVariablesEquivalent asTensorShape q var) ||
             someLeafPairNotEquivalent asTensorShape loadedMap rest) := by
        unfold someLeafPairNotEquivalent
        rw [List.any_cons]
        rw [hq]
        rfl
      unfold restoreLeafVariables
      simp only [hq]
      by_cases heqv : areVariablesEquivalent asTensorShape q var = true
      · simp only [heqv, if_true]
        have hne2 : someLeafPairNotEquivalent asTensorShape loadedMap ((k, var) :: rest)
            = someLeafPairNotEquivalent asTensorShape loadedMap rest := by
          rw [hne, heqv]
          simp
        by_cases hcp : (var.IsConstant || var.IsParameter) = true
        · obtain ⟨hv1, hv2⟩ := hvp (k, var) (List.mem_cons_self _ _) q hq hcp
          obtain ⟨v1, hv1e⟩ := Option.isSome_iff_exists.mp hv1
          obtain ⟨v2, hv2e⟩ := Option.isSome_iff_exists.mp hv2
          have hv1f : var.value = some v1 := hv1e
          simp only [hcp, if_true, hv1f, hv2e]
          constructor
          · intro hsomeT
            rw [hne2] at hsomeT
            rw [hrest.1 hsomeT]
          · intro hsomeF
            rw [hne2] at hsomeF
            rw [hrest.2 hsomeF]
            have : expectedCopies loadedMap ((k, var) :: rest)
                = (var.uid, v2) :: expectedCopies loadedMap rest := by
              unfold expectedCopies
              rw [List.filterMap_cons]
              simp [hcp, hq, hv2e]
            rw [this]
        · simp only [Bool.not_eq_true] at hcp
          simp only [hcp, Bool.false_eq_true, if_false]
          have hcopies : expectedCopies loadedMap ((k, var) :: rest)
              = expectedCopies loadedMap rest := by
            unfold expectedCopies
            rw [List.filterMap_cons]
            simp [hcp]
          constructor
          · intro hsomeT
            rw [hne2] at hsomeT
            exact hrest.1 hsomeT
          · intro hsomeF
            rw [hne2] at hsomeF
            rw [hrest.2 hsomeF, hcopies]
      · have heqv' : areVariablesEquivalent asTensorShape q var = false := by
          cases h2 : areVariablesEquivalent asTensorShape q var
          · rfl
          · exact absurd h2 heqv
        simp only [heqv', Bool.false_eq_true, if_false]
        constructor
        · intro _
          trivial
        · intro hsomeF
          rw [hne, heqv'] at hsomeF
          simp at hsomeF

/-- C3 counterexample: with equal leaf-variable counts (one on each side) but
disjoint UIDs, no UID-matched pair differs, yet `RestoreFromCheckpoint`
neither raises `InvalidArgument` nor copies-and-restores — the
`loadedModelLeafVariablesMap.at(uid)` lookup fails (`std::out_of_range`). -/
theorem restoreFromCheckpoint_missing_uid_counterexample :
    cexTrainer.combinedTrainingFunction.inputs.length = cexLoaded.inputs.length
    ∧ someLeafPairNotEquivalent testATS (uidMapOf cexLoaded.inputs)
        (uidMapOf cexCombined.inputs) = false
    ∧ cexTrainer.RestoreFromCheckpoint testATS cexFs "model" = .error .outOfRange := by
  refine ⟨rfl, by decide, by rfl⟩

/-- C3 (amended): provided the model file loads, the trainer has a single
learner, every trainer-map UID has a loaded-map counterpart (otherwise an
out-of-range lookup error is raised instead of `InvalidArgument`), the copied
values exist, and the ".ckp" file holds a learner state, the restore raises
`InvalidArgument` exactly when the raw leaf counts differ or some UID-matched
pair of the pruned, deduplicated UID maps is not equivalent; otherwise it
copies, for every Constant/Parameter entry of the trainer's UID map, the
UID-matching loaded leaf's value, and restores the single learner's state
from `modelFilePath ++ ".ckp"`. -/
theorem restoreFromCheckpoint_leaf_matching_amended
    (t : Trainer) (asTensorShape : NDShape → List Nat) (fs : FileSystem)
    (modelFilePath : String) (l : Learner) (loadedModelFunction : Func)
    (trainerMap loadedMap : UidMap) (d : Dictionary)
    (hl : t.parameterLearners = [l])
    (ho : t.combinedTrainingFunction.outputs ≠ [])
    (hload : fsRead fs modelFilePath = some (.modelData loadedModelFunction))
    (hrmL : removePastAndFutureValueInitialStateScalarConstants
        loadedModelFunction.allPrimitiveFunctions
        (uidMapOf loadedModelFunction.inputs) = .ok loadedMap)
    (hrmT : removePastAndFutureValueInitialStateScalarConstants
        t.combinedTrainingFunction.allPrimitiveFunctions
        (uidMapOf t.combinedTrainingFunction.inputs) = .ok trainerMap)
    (hall : leafCounterpartsPresent loadedMap trainerMap = true)
    (hvp : leafValuesPresent loadedMap trainerMap = true)
    (hckp : fsRead fs (GetTrainerStateCheckpointFilePath modelFilePath)
        = some (.learnerState d)) :
    ((∃ msg, t.RestoreFromCheckpoint asTensorShape fs modelFilePath
        = .error (.invalidArgument msg)) ↔
      (t.combinedTrainingFunction.inputs.length ≠ loadedModelFunction.inputs.length
       ∨ someLeafPairNotEquivalent asTensorShape loadedMap trainerMap = true))
    ∧ (t.combinedTrainingFunction.inputs.length = loadedModelFunction.inputs.length →
        someLeafPairNotEquivalent asTensorShape loadedMap trainerMap = false →
        t.RestoreFromCheckpoint asTensorShape fs modelFilePath
          = .ok { copies := expectedCopies loadedMap trainerMap
                  restoredLearnerId := l.id
                  restoredLearnerState := d }) := by
  have hall' : ∀ p ∈ trainerMap, (uidMapAt loadedMap p.2.uid).isSome = true := by
    intro p hp
    exact List.all_eq_true.mp hall p hp
  have hvp' : ∀ p ∈ trainerMap, ∀ q, uidMapAt loadedMap p.2.uid = some q →
      (p.2.IsConstant || p.2.IsParameter) = true →
      p.2.value.isSome = true ∧ q.value.isSome = true := by
    intro p hp q hq hcp
    have hb := List.all_eq_true.mp hvp p hp
    rw [Bool.or_eq_true, Bool.not_eq_true'] at hb
    rcases hb with hb | hb
    · rw [hcp] at hb
      cases hb
    · rw [Bool.and_eq_true] at hb
      refine ⟨hb.1, ?_⟩
      have := hb.2
      rw [hq] at this
      exact this
  have hspec := restoreLeafVariables_spec asTensorShape loadedMap trainerMap hall' hvp'
  obtain ⟨o, os, houts⟩ : ∃ o os, t.combinedTrainingFunction.outputs = o :: os := by
    cases hco : t.combinedTrainingFunction.outputs with
    | nil => exact absurd hco ho
    | cons o os => exact ⟨o, os, rfl⟩
  have hchar : t.RestoreFromCheckpoint asTensorShape fs modelFilePath =
      if t.combinedTrainingFunction.inputs.length ≠ loadedModelFunction.inputs.length then
        .error (.invalidArgument "The loaded model's leaf variables do not match the trainer model's leaf variables")
      else if someLeafPairNotEquivalent asTensorShape loadedMap trainerMap then
        .error (.invalidArgument "The loaded model's leaf variables do not match the trainer model's leaf variables")
      else
        .ok { copies := expectedCopies loadedMap trainerMap
              restoredLearnerId := l.id
              restoredLearnerState := d } := by
    unfold Trainer.RestoreFromCheckpoint
    rw [hl, houts]
    simp only [List.head?_cons, hload]
    by_cases hlen : t.combinedTrainingFunction.inputs.length = loadedModelFunction.inputs.length
    · rw [if_neg (fun hh => hh hlen), if_neg (fun hh => hh hlen)]
      simp only [hrmL, hrmT]
      by_cases hne : someLeafPairNotEquivalent asTensorShape loadedMap trainerMap = true
      · rw [hspec.1 hne]
        simp only [hne, if_true]
      · have hne' : someLeafPairNotEquivalent asTensorShape loadedMap trainerMap = false := by
          cases h2 : someLeafPairNotEquivalent asTensorShape loadedMap trainerMap
          · rfl
          · exact absurd h2 hne
        rw [hspec.2 hne']
        simp only [hne', Bool.false_eq_true, if_false]
        rw [if_neg (by simp)]
        simp only [hckp]
    · rw [if_pos hlen, if_pos hlen]
  refine ⟨?_, ?_⟩
  · constructor
    · rintro ⟨msg, hres⟩
      rw [hchar] at hres
      by_cases hlen : t.combinedTrainingFunction.inputs.length
          ≠ loadedModelFunction.inputs.length
      · exact .inl hlen
      · rw [if_neg hlen] at hres
        by_cases hne : someLeafPairNotEquivalent asTensorShape loadedMap trainerMap = true
        · exact .inr hne
        · have hne' : someLeafPairNotEquivalent asTensorShape loadedMap trainerMap = false := by
            cases h2 : someLeafPairNotEquivalent asTensorShape loadedMap trainerMap
            · rfl
            · exact absurd h2 hne
          rw [hne'] at hres
          simp only [Bool.false_eq_true, if_false] at hres
          cases hres
    · intro hor
      rw [hchar]
      by_cases hlen : t.combinedTrainingFunction.inputs.length
          ≠ loadedModelFunction.inputs.length
      · rw [if_pos hlen]
        exact ⟨_, rfl⟩
      · rw [if_neg hlen]
        rcases hor with h1 | h1
        · exact absurd h1 hlen
        · rw [h1]
          simp only [if_true]
          exact ⟨_, rfl⟩
  · intro hlen hne
    rw [hchar, if_neg (fun hh => hh hlen), hne]
    simp only [Bool.false_eq_true, if_false]

/-- C3 amended-theorem witness: restoring a model from its own checkpoint
satisfies the characterization (no `InvalidArgument`, successful copy and
learner-state restore). -/
theorem restoreFromCheckpoint_leaf_matching_amended_witness :
    ((∃ msg, testTrainer.RestoreFromCheckpoint testATS testSavedFs "model"
        = .error (.invalidArgument msg)) ↔
      (testTrainer.combinedTrainingFunction.inputs.length
          ≠ testCombined.inputs.length
       ∨ someLeafPairNotEquivalent testATS (uidMapOf testCombined.inputs)
           (uidMapOf testCombined.inputs) = true))
    ∧ (testTrainer.combinedTrainingFunction.inputs.length = testCombined.inputs.length →
        someLeafPairNotEquivalent testATS (uidMapOf testCombined.inputs)
          (uidMapOf testCombined.inputs) = false →
        testTrainer.RestoreFromCheckpoint testATS testSavedFs "model"
          = .ok { copies := expectedCopies (uidMapOf testCombined.inputs)
                    (uidMapOf testCombined.inputs)
                  restoredLearnerId := testLearner.id
                  restoredLearnerState := ⟨42⟩ }) :=
  restoreFromCheckpoint_leaf_matching_amended testTrainer testATS testSavedFs "model"
    testLearner testCombined (uidMapOf testCombined.inputs) (uidMapOf testCombined.inputs)
    ⟨42⟩ rfl (by decide) rfl rfl rfl (by decide) (by decide) (by rfl)

end CNTK
